import Mathlib

/-!
Verification of the coros-fit-analysis workout scoring and trend-analysis
engine, shallowly embedded from the Python sources
(`fastapi_dashboard/backend/analysis_engine.py`,
`fastapi_dashboard/backend/comparison_engine.py`,
`fastapi_dashboard/backend/pmc_calculator.py`,
`analyze_long_runs.py`, `generate_swim_dashboard.py`).

Numbers are modelled as exact rationals (`ℚ`).  Python dictionaries holding
optional metric keys are modelled as structures with `Option` fields; the
`dict.get(key, default)` idiom becomes `Option.getD`.  The presentational
`round(x, 2)` applied by the PMC code when emitting points (a float display
rounding) is omitted: all statements are about the underlying exact values,
which are also the values threaded through the EMA state.
-/

/-- MetricsBundle for a swim workout, mirroring the `metrics` dict built by
`calculate_swim_metrics` (plus the metadata key `distance_m` that the scorer
reads from the same mapping).  A `none` field models an absent dict key. -/
structure SwimMetrics where
  speed : Option (List ℚ)
  speed_avg : Option ℚ
  speed_cv : Option ℚ
  stop_percentage : Option ℚ
  speed_gear_count : Option ℚ
  has_speed_gears : Option Bool
  distance_m : Option ℚ
  stroke_rate_cv : Option ℚ
  stroke_rate_drop : Option ℚ
deriving Repr

/-- The four named sub-score categories returned by `score_swim_workout`. -/
structure SubScores where
  distance_endurance : ℤ
  pace_consistency : ℤ
  stroke_stability : ℤ
  speed_gears : ℤ
deriving Repr, DecidableEq

/-- Block A of `score_swim_workout`: distance endurance (0-25).
Base score steps at 2000/1500/1000/500 m, plus a +3/+1 bonus for low
`stop_percentage`, clamped to 25 with `min(25, distance_score)`. -/
def distanceEnduranceScore (m : SwimMetrics) : ℤ :=
  let distance_m : ℚ := m.distance_m.getD 0
  let base : ℤ :=
    if 0 < distance_m then
      if 2000 ≤ distance_m then 25
      else if 1500 ≤ distance_m then 20
      else if 1000 ≤ distance_m then 15
      else if 500 ≤ distance_m then 10
      else 5
    else 0
  let stop_pct : ℚ := m.stop_percentage.getD 100
  let boosted : ℤ := if stop_pct < 5 then base + 3 else if stop_pct < 10 then base + 1 else base
  min 25 boosted

/-- Block B of `score_swim_workout`: pace consistency (0-25).
Steps on `speed_cv` at 3/6/10/15, with a -5 penalty (floored at 0) when
`stop_percentage > 20`. -/
def paceConsistencyScore (m : SwimMetrics) : ℤ :=
  let speed_cv : ℚ := m.speed_cv.getD 100
  let base : ℤ :=
    if speed_cv < 3 then 25
    else if speed_cv < 6 then 20
    else if speed_cv < 10 then 15
    else if speed_cv < 15 then 10
    else 5
  let stop_pct : ℚ := m.stop_percentage.getD 100
  if 20 < stop_pct then max 0 (base - 5) else base

/-- Block C of `score_swim_workout`: stroke rate and stability (0-25).
Steps on `stroke_rate_cv` at 5/10/15, adjusted by `abs(stroke_rate_drop)`
(+10 below 2, +5 below 4, -5 floored at 0 above 5), clamped to 25. -/
def strokeStabilityScore (m : SwimMetrics) : ℤ :=
  let stroke_cv : ℚ := m.stroke_rate_cv.getD 100
  let stroke_drop : ℚ := |m.stroke_rate_drop.getD 0|
  let base : ℤ :=
    if stroke_cv < 5 then 15
    else if stroke_cv < 10 then 12
    else if stroke_cv < 15 then 8
    else 5
  let adjusted : ℤ :=
    if stroke_drop < 2 then base + 10
    else if stroke_drop < 4 then base + 5
    else if 5 < stroke_drop then max 0 (base - 5)
    else base
  min 25 adjusted

/-- Block D of `score_swim_workout`: speed gear presence (0-25).
Steps on `speed_gear_count` at 5/3/1, falls back to `has_speed_gears`,
then to a workout-type-dependent default. -/
def speedGearsScore (m : SwimMetrics) (workout_type : String) : ℤ :=
  let gear_count : ℚ := m.speed_gear_count.getD 0
  if 5 ≤ gear_count then 25
  else if 3 ≤ gear_count then 20
  else if 1 ≤ gear_count then 15
  else if m.has_speed_gears.getD false then 10
  else if workout_type = "Endurance" then 15
  else 5

/-- Grade bucketing at the end of `score_swim_workout`:
A ≥ 85, B ≥ 70, C ≥ 55, else D. -/
def gradeOfTotal (total : ℤ) : String :=
  if 85 ≤ total then "A"
  else if 70 ≤ total then "B"
  else if 55 ≤ total then "C"
  else "D"

/-- `score_swim_workout(metrics, workout_type) -> (grade, sub_scores, total)`
from `analysis_engine.py` (duplicated verbatim in
`generate_swim_dashboard.py`). -/
def score_swim_workout (m : SwimMetrics) (workout_type : String) :
    String × SubScores × ℤ :=
  let subs : SubScores :=
    ⟨distanceEnduranceScore m, paceConsistencyScore m,
     strokeStabilityScore m, speedGearsScore m workout_type⟩
  let total : ℤ := subs.distance_endurance + subs.pace_consistency +
    subs.stroke_stability + subs.speed_gears
  (gradeOfTotal total, subs, total)

theorem distanceEnduranceScore_bounds (m : SwimMetrics) :
    0 ≤ distanceEnduranceScore m ∧ distanceEnduranceScore m ≤ 25 := by
  unfold distanceEnduranceScore
  dsimp only
  split_ifs <;> decide

theorem paceConsistencyScore_bounds (m : SwimMetrics) :
    0 ≤ paceConsistencyScore m ∧ paceConsistencyScore m ≤ 25 := by
  unfold paceConsistencyScore
  dsimp only
  split_ifs <;> decide

theorem strokeStabilityScore_bounds (m : SwimMetrics) :
    0 ≤ strokeStabilityScore m ∧ strokeStabilityScore m ≤ 25 := by
  unfold strokeStabilityScore
  dsimp only
  split_ifs <;> decide

theorem speedGearsScore_bounds (m : SwimMetrics) (wt : String) :
    0 ≤ speedGearsScore m wt ∧ speedGearsScore m wt ≤ 25 := by
  unfold speedGearsScore
  dsimp only
  split_ifs <;> decide

/-- C1: for every metrics mapping and workout type, `score_swim_workout`
returns four sub-scores each in [0, 25], a total equal to their sum (hence at
most 100), and a grade that is the step function of the total with cut points
85/70/55: "A" iff total ≥ 85, "B" iff 70 ≤ total < 85, "C" iff
55 ≤ total < 70, "D" iff total < 55. -/
theorem score_swim_workout_subscores_total_grade (m : SwimMetrics) (wt : String) :
    let r := score_swim_workout m wt
    (0 ≤ r.2.1.distance_endurance ∧ r.2.1.distance_endurance ≤ 25) ∧
    (0 ≤ r.2.1.pace_consistency ∧ r.2.1.pace_consistency ≤ 25) ∧
    (0 ≤ r.2.1.stroke_stability ∧ r.2.1.stroke_stability ≤ 25) ∧
    (0 ≤ r.2.1.speed_gears ∧ r.2.1.speed_gears ≤ 25) ∧
    r.2.2 = r.2.1.distance_endurance + r.2.1.pace_consistency +
      r.2.1.stroke_stability + r.2.1.speed_gears ∧
    r.2.2 ≤ 100 ∧
    ((r.1 = "A" ↔ 85 ≤ r.2.2) ∧
     (r.1 = "B" ↔ 70 ≤ r.2.2 ∧ r.2.2 < 85) ∧
     (r.1 = "C" ↔ 55 ≤ r.2.2 ∧ r.2.2 < 70) ∧
     (r.1 = "D" ↔ r.2.2 < 55)) := by
  have hd := distanceEnduranceScore_bounds m
  have hp := paceConsistencyScore_bounds m
  have hs := strokeStabilityScore_bounds m
  have hg := speedGearsScore_bounds m wt
  unfold score_swim_workout
  dsimp only
  refine ⟨hd, hp, hs, hg, rfl, by omega, ?_⟩
  unfold gradeOfTotal
  split_ifs with h1 h2 h3 <;>
    refine ⟨?_, ?_, ?_, ?_⟩ <;> simp_all <;> omega

/-- The concrete metrics mapping of the end-to-end example: a 2000 m swim
with stop_percentage 2, speed_cv 4, stroke_rate_cv 4, stroke_rate_drop 1
and speed_gear_count 4. -/
def exampleSwimMetrics : SwimMetrics :=
  ⟨none, none, some 4, some 2, some 4, none, some 2000, some 4, some 1⟩

/-- C5: on the example 2000 m swim (stop 2%, speed CV 4, stroke CV 4,
stroke drop 1, 4 gears) `score_swim_workout` yields sub-scores 25 (25+3
clamped), 20, 25 (15+10), 20, total 90 and grade "A", for every workout
type. -/
theorem score_swim_workout_example (wt : String) :
    score_swim_workout exampleSwimMetrics wt = ("A", ⟨25, 20, 25, 20⟩, 90) := by
  unfold score_swim_workout distanceEnduranceScore paceConsistencyScore
    strokeStabilityScore speedGearsScore gradeOfTotal exampleSwimMetrics
  norm_num

/-- `detect_workout_type(df, metrics)` from `analysis_engine.py` (the `df`
argument is unused there; only the metrics dict is read).  The source's
nested conditional for "Threshold" (`if avg>0.8 and cv<10: if stop<10:
return "Threshold"`) falls through to the later rules when the inner test
fails, so it is written here as the flat three-way conjunction. -/
def detect_workout_type (m : SwimMetrics) : String :=
  if m.speed = none ∨ (m.speed.getD []).length < 50 then "Recovery"
  else if 15 < m.speed_cv.getD 0 ∧ 3 < m.speed_gear_count.getD 0 then "Speed"
  else if 4/5 < m.speed_avg.getD 0 ∧ m.speed_cv.getD 0 < 10 ∧
      m.stop_percentage.getD 100 < 10 then "Threshold"
  else if 20 < m.stop_percentage.getD 0 then "Technique"
  else if m.speed_cv.getD 0 < 8 ∧ m.stop_percentage.getD 100 < 15 then "Endurance"
  else if m.speed_avg.getD 0 < 3/5 then "Recovery"
  else "Endurance"

/-- The spec's seven-rule decision table for the workout classifier
(0-indexed; rule 6 is the catch-all).  Rule 0 is stated as the spec writes
it, "fewer than 50 valid speed samples", with an absent speed key counting
as zero samples. -/
def specRulePred : ℕ → SwimMetrics → Prop
  | 0, m => (m.speed.getD []).length < 50
  | 1, m => 15 < m.speed_cv.getD 0 ∧ 3 < m.speed_gear_count.getD 0
  | 2, m => 4/5 < m.speed_avg.getD 0 ∧ m.speed_cv.getD 0 < 10 ∧
      m.stop_percentage.getD 100 < 10
  | 3, m => 20 < m.stop_percentage.getD 0
  | 4, m => m.speed_cv.getD 0 < 8 ∧ m.stop_percentage.getD 100 < 15
  | 5, m => m.speed_avg.getD 0 < 3/5
  | _, _ => True

/-- Labels of the spec's decision table, in rule order. -/
def specRuleLabel : ℕ → String
  | 0 => "Recovery"
  | 1 => "Speed"
  | 2 => "Threshold"
  | 3 => "Technique"
  | 4 => "Endurance"
  | 5 => "Recovery"
  | _ => "Endurance"

instance (i : ℕ) (m : SwimMetrics) : Decidable (specRulePred i m) := by
  unfold specRulePred
  split <;> infer_instance

/-- C3: `detect_workout_type` is the top-to-bottom first-match evaluation of
the seven-rule table: whenever rule `i` is satisfied and no earlier rule is,
the returned label is rule `i`'s label — even when a later rule's condition
also holds. -/
theorem detect_workout_type_first_match (m : SwimMetrics) (i : ℕ) (hi : i < 7)
    (hsat : specRulePred i m)
    (hearlier : ∀ j, j < i → ¬ specRulePred j m) :
    detect_workout_type m = specRuleLabel i := by
  have rule0_iff : (m.speed = none ∨ (m.speed.getD []).length < 50) ↔
      specRulePred 0 m := by
    simp only [specRulePred]
    constructor
    · rintro (h | h)
      · rw [h]; norm_num
      · exact h
    · exact Or.inr
  interval_cases i
  · simp only [specRulePred] at hsat
    unfold detect_workout_type
    rw [if_pos (Or.inr hsat)]
    rfl
  · have h0 := hearlier 0 (by norm_num)
    simp only [specRulePred] at hsat
    unfold detect_workout_type
    rw [if_neg (fun h => h0 (rule0_iff.mp h)), if_pos hsat]
    rfl
  · have h0 := hearlier 0 (by norm_num)
    have h1 := hearlier 1 (by norm_num)
    simp only [specRulePred] at hsat h1
    unfold detect_workout_type
    rw [if_neg (fun h => h0 (rule0_iff.mp h)), if_neg h1, if_pos hsat]
    rfl
  · have h0 := hearlier 0 (by norm_num)
    have h1 := hearlier 1 (by norm_num)
    have h2 := hearlier 2 (by norm_num)
    simp only [specRulePred] at hsat h1 h2
    unfold detect_workout_type
    rw [if_neg (fun h => h0 (rule0_iff.mp h)), if_neg h1, if_neg h2,
      if_pos hsat]
    rfl
  · have h0 := hearlier 0 (by norm_num)
    have h1 := hearlier 1 (by norm_num)
    have h2 := hearlier 2 (by norm_num)
    have h3 := hearlier 3 (by norm_num)
    simp only [specRulePred] at hsat h1 h2 h3
    unfold detect_workout_type
    rw [if_neg (fun h => h0 (rule0_iff.mp h)), if_neg h1, if_neg h2,
      if_neg h3, if_pos hsat]
    rfl
  · have h0 := hearlier 0 (by norm_num)
    have h1 := hearlier 1 (by norm_num)
    have h2 := hearlier 2 (by norm_num)
    have h3 := hearlier 3 (by norm_num)
    have h4 := hearlier 4 (by norm_num)
    simp only [specRulePred] at hsat h1 h2 h3 h4
    unfold detect_workout_type
    rw [if_neg (fun h => h0 (rule0_iff.mp h)), if_neg h1, if_neg h2,
      if_neg h3, if_neg h4, if_pos hsat]
    rfl
  · have h0 := hearlier 0 (by norm_num)
    have h1 := hearlier 1 (by norm_num)
    have h2 := hearlier 2 (by norm_num)
    have h3 := hearlier 3 (by norm_num)
    have h4 := hearlier 4 (by norm_num)
    have h5 := hearlier 5 (by norm_num)
    simp only [specRulePred] at h1 h2 h3 h4 h5
    unfold detect_workout_type
    rw [if_neg (fun h => h0 (rule0_iff.mp h)), if_neg h1, if_neg h2,
      if_neg h3, if_neg h4, if_neg h5]
    rfl

/-- A metrics mapping on which rule 1 (Speed) fires while the later rule 3
(Technique, stop_percentage > 20) also holds. -/
def speedRuleMetrics : SwimMetrics :=
  ⟨some (List.replicate 60 1), some 1, some 20, some 30, some 5, none, none,
    none, none⟩

/-- Witness for C3: on `speedRuleMetrics`, rule 1 is the first satisfied
rule (rule 0 fails: 60 samples), rule 3 also holds, and the classifier
returns "Speed". -/
theorem detect_workout_type_first_match_witness :
    detect_workout_type speedRuleMetrics = "Speed" ∧
    specRulePred 3 speedRuleMetrics := by
  refine ⟨detect_workout_type_first_match speedRuleMetrics 1 (by norm_num)
    (by decide) ?_, by decide⟩
  intro j hj
  interval_cases j
  decide

/-- The `while len(l) < 3: l.append(filler)` padding at the end of
`generate_pros_cons`: appends the filler string until the list has at
least three entries. -/
def padTo3 (filler : String) (l : List String) : List String :=
  l ++ List.replicate (3 - l.length) filler

/-- `generate_pros_cons(metrics, sub_scores, workout_type)` from
`analysis_engine.py`: rule-based assembly of pros and cons strings,
followed by filler padding and truncation to the first three entries. -/
def generate_pros_cons (m : SwimMetrics) (s : SubScores) (wt : String) :
    List String × List String :=
  let pros : List String :=
    (if 20 ≤ s.pace_consistency then
      ["Excellent pacing control — consistent speed throughout"] else []) ++
    (if 20 ≤ s.distance_endurance then
      ["Solid endurance base — you sustained volume well"] else []) ++
    (if 20 ≤ s.stroke_stability then
      ["Stroke rhythm held up under fatigue — good form"] else []) ++
    (if m.stop_percentage.getD 100 < 5 then
      ["Minimal interruptions — great continuous swimming"] else []) ++
    (if 20 ≤ s.speed_gears then
      ["Good speed variation — multiple gears used effectively"] else [])
  let pros : List String :=
    if pros.length < 3 then
      pros ++
      (if 1500 < m.distance_m.getD 0 then
        ["Strong distance covered — building aerobic capacity"] else []) ++
      (if m.stroke_rate_cv.getD 100 < 10 then
        ["Stable stroke rate — consistent technique"] else [])
    else pros
  let cons : List String :=
    (if s.speed_gears < 15 ∧ wt ≠ "Recovery" then
      ["One-gear swim — add speed gears for better stimulus"] else []) ++
    (if 15 < m.stop_percentage.getD 0 then
      ["Too many interruptions — shorten rest, keep momentum"] else []) ++
    (if s.pace_consistency < 15 then
      ["Pacing too variable — aim for more consistent splits"] else []) ++
    (if 4 < m.stroke_rate_drop.getD 0 then
      ["Technique breaks late — add short form-focused repeats"] else []) ++
    (if s.distance_endurance < 15 then
      ["Distance too short — build volume gradually"] else [])
  let cons : List String :=
    if cons.length < 3 then
      cons ++
      (if 12 < m.speed_cv.getD 0 then
        ["Speed variability too high — structure your sets"] else []) ++
      (if 15 < m.stroke_rate_cv.getD 100 then
        ["Stroke rate inconsistent — focus on rhythm"] else [])
    else cons
  ((padTo3 "Good effort — keep building consistency" pros).take 3,
   (padTo3 "Room for improvement — focus on fundamentals" cons).take 3)

theorem padTo3_take_length (f : String) (l : List String) :
    ((padTo3 f l).take 3).length = 3 := by
  simp only [padTo3, List.length_take, List.length_append,
    List.length_replicate]
  omega

/-- C6: for every metrics mapping, sub-scores mapping and workout type,
`generate_pros_cons` returns exactly 3 pros and exactly 3 cons — short
rule-assembled lists are padded with filler strings and long ones are
truncated to their first 3 entries. -/
theorem generate_pros_cons_length (m : SwimMetrics) (s : SubScores)
    (wt : String) :
    (generate_pros_cons m s wt).1.length = 3 ∧
    (generate_pros_cons m s wt).2.length = 3 := by
  unfold generate_pros_cons
  exact ⟨padTo3_take_length _ _, padTo3_take_length _ _⟩

/-- Mean of a list of rationals (pandas `.mean()` / `np.mean`).  Division by
zero yields 0 in Lean; every use below is guarded by a nonemptiness check
mirroring the source's own guards. -/
def listMean (l : List ℚ) : ℚ := l.sum / l.length

/-- The guarded coefficient-of-variation expression of
`calculate_swim_metrics`:
`(data.std() / data.mean() * 100) if data.mean() > 0 else 0`.
Note the else branch yields 0 — not 100 — in both `analysis_engine.py` and
`generate_swim_dashboard.py`. -/
def cvOf (std mean : ℚ) : ℚ := if 0 < mean then std / mean * 100 else 0

/-- The speed-derived scalar metrics set by the speed block of
`calculate_swim_metrics`. -/
structure SpeedStats where
  speed_avg : ℚ
  speed_cv : ℚ
  stop_percentage : ℚ
deriving Repr, DecidableEq

/-- Cleaned speed series: `df[speed_col].dropna()` (a `none` entry models
NaN) followed by the `speed_data > 0` filter. -/
def cleanSpeed (col : List (Option ℚ)) : List ℚ :=
  (col.filterMap id).filter (fun x => decide (0 < x))

/-- The speed block of `calculate_swim_metrics`: when the cleaned series is
nonempty it sets `speed_avg`, `speed_cv` (via the guarded CV expression) and
`stop_percentage` (share of samples below 10% of the mean); when it is empty
it sets the degraded values avg 0, CV 100, stop 100.  `std` is the pandas
sample standard deviation of the cleaned series, kept as a parameter because
its value is irrational in general; theorems below either constrain it by
`0 ≤ std` or instantiate it at constant data, whose standard deviation
is 0. -/
def speedStatsOf (col : List (Option ℚ)) (std : ℚ) : SpeedStats :=
  let speed_data := cleanSpeed col
  if 0 < speed_data.length then
    let m := listMean speed_data
    let stops := (speed_data.filter (fun x => decide (x < m * (1/10)))).length
    ⟨m, cvOf std m,
      if 0 < speed_data.length then (stops : ℚ) / speed_data.length * 100
      else 0⟩
  else ⟨0, 100, 100⟩

/-- Cleaned stroke-rate series: `df['cadence'].dropna()` followed by the
reasonable-range filter `(stroke_rate > 0) & (stroke_rate < 100)`. -/
def cleanStrokeRate (col : List (Option ℚ)) : List ℚ :=
  (col.filterMap id).filter (fun x => decide (0 < x ∧ x < 100))

/-- The `stroke_rate_cv` key of `calculate_swim_metrics`: set (via the same
guarded CV expression) only when the cleaned stroke-rate series is nonempty,
absent (`none`) otherwise. -/
def strokeRateCvOf (col : List (Option ℚ)) (std : ℚ) : Option ℚ :=
  let sr := cleanStrokeRate col
  if 0 < sr.length then some (cvOf std (listMean sr)) else none

theorem mem_cleanSpeed_pos {col : List (Option ℚ)} {x : ℚ}
    (hx : x ∈ cleanSpeed col) : 0 < x := by
  have := List.of_mem_filter hx
  exact of_decide_eq_true this

theorem mem_cleanStrokeRate_pos {col : List (Option ℚ)} {x : ℚ}
    (hx : x ∈ cleanStrokeRate col) : 0 < x := by
  have := List.of_mem_filter hx
  exact (of_decide_eq_true this).1

theorem listMean_pos {l : List ℚ} (h : ∀ x ∈ l, 0 < x) (hne : l ≠ []) :
    0 < listMean l := by
  unfold listMean
  have hlen : 0 < (l.length : ℚ) := by
    have : 0 < l.length := List.length_pos.mpr hne
    exact_mod_cast this
  exact div_pos (List.sum_pos l h hne) hlen

/-- Counterexample for C2: the mean ≤ 0 guard branch of the CV expression in
`calculate_swim_metrics` evaluates to 0, not to the claimed safe default
100. -/
theorem cvOf_mean_zero_counterexample : cvOf 5 0 = 0 ∧ cvOf 5 0 ≠ 100 := by
  decide

/-- C2 (amended): for the speed and stroke-rate CVs of
`calculate_swim_metrics`, with std the (nonnegative) standard deviation of
the cleaned series: CV = std/mean × 100 whenever the cleaned series is
nonempty (its mean is then positive, since cleaned samples are strictly
positive); CV ≥ 0 always; CV = 100 whenever the valid sample count is 0, and
hence whenever the cleaned mean is ≤ 0, which only happens at count 0; the
mean ≤ 0 branch of the guard itself, however, yields 0, not 100 (it is
unreachable from the function). -/
theorem calculate_swim_metrics_cv (col scol : List (Option ℚ)) (std sstd : ℚ)
    (hstd : 0 ≤ std) (hsstd : 0 ≤ sstd) :
    (0 ≤ (speedStatsOf col std).speed_cv) ∧
    (cleanSpeed col = [] → (speedStatsOf col std).speed_cv = 100) ∧
    (cleanSpeed col ≠ [] → 0 < listMean (cleanSpeed col) ∧
      (speedStatsOf col std).speed_cv =
        std / listMean (cleanSpeed col) * 100) ∧
    (listMean (cleanSpeed col) ≤ 0 → (speedStatsOf col std).speed_cv = 100) ∧
    (∀ cv, strokeRateCvOf scol sstd = some cv →
      0 ≤ cv ∧ cv = sstd / listMean (cleanStrokeRate scol) * 100) ∧
    (∀ mean, mean ≤ 0 → cvOf std mean = 0) := by
  by_cases hne : cleanSpeed col = []
  · have hempty : (speedStatsOf col std).speed_cv = 100 := by
      unfold speedStatsOf
      rw [hne]
      norm_num
    refine ⟨by rw [hempty]; norm_num, fun _ => hempty, fun h => absurd hne h,
      fun _ => hempty, ?_, ?_⟩
    · intro cv hcv
      unfold strokeRateCvOf at hcv
      by_cases hsr : 0 < (cleanStrokeRate scol).length
      · rw [if_pos hsr] at hcv
        have hmean : 0 < listMean (cleanStrokeRate scol) :=
          listMean_pos (fun x hx => mem_cleanStrokeRate_pos hx)
            (List.length_pos.mp hsr)
        have : cv = sstd / listMean (cleanStrokeRate scol) * 100 := by
          have := Option.some.inj hcv
          rw [← this, cvOf, if_pos hmean]
        refine ⟨?_, this⟩
        rw [this]
        positivity
      · rw [if_neg hsr] at hcv
        exact absurd hcv (by simp)
    · intro mean hm
      unfold cvOf
      rw [if_neg (not_lt.mpr hm)]
  · have hlen : 0 < (cleanSpeed col).length := List.length_pos.mpr hne
    have hmean : 0 < listMean (cleanSpeed col) :=
      listMean_pos (fun x hx => mem_cleanSpeed_pos hx) hne
    have hcv : (speedStatsOf col std).speed_cv =
        std / listMean (cleanSpeed col) * 100 := by
      unfold speedStatsOf
      rw [if_pos hlen]
      dsimp only
      rw [cvOf, if_pos hmean]
    refine ⟨by rw [hcv]; positivity, fun h => absurd h hne,
      fun _ => ⟨hmean, hcv⟩, fun h => absurd hmean (not_lt.mpr h), ?_, ?_⟩
    · intro cv hcvs
      unfold strokeRateCvOf at hcvs
      by_cases hsr : 0 < (cleanStrokeRate scol).length
      · rw [if_pos hsr] at hcvs
        have hmean2 : 0 < listMean (cleanStrokeRate scol) :=
          listMean_pos (fun x hx => mem_cleanStrokeRate_pos hx)
            (List.length_pos.mp hsr)
        have : cv = sstd / listMean (cleanStrokeRate scol) * 100 := by
          have := Option.some.inj hcvs
          rw [← this, cvOf, if_pos hmean2]
        refine ⟨?_, this⟩
        rw [this]
        positivity
      · rw [if_neg hsr] at hcvs
        exact absurd hcvs (by simp)
    · intro mean hm
      unfold cvOf
      rw [if_neg (not_lt.mpr hm)]

/-- Witness for C2 (amended), at the concrete cleaned series [2, 2] with
standard deviation 0: the speed CV is the formula value. -/
theorem calculate_swim_metrics_cv_witness :
    (speedStatsOf [some 2, some 2] 0).speed_cv =
      0 / listMean (cleanSpeed [some 2, some 2]) * 100 :=
  ((calculate_swim_metrics_cv [some 2, some 2] [] 0 0 le_rfl le_rfl).2.2.1
    (by decide)).2

/-- The three always-present keys of the dict returned by
`calculate_hr_stability`. -/
structure HrStability where
  stability_score : ℚ
  cv : ℚ
  drift : ℚ
deriving Repr, DecidableEq

/-- `calculate_hr_stability(df)` from `analyze_long_runs.py`.  `none` for
the whole column models `'heart_rate' not in df.columns`; a `none` entry
models NaN (dropped by `dropna()`).  The full branch additionally returns
avg/min/max keys, not modelled here; `std` is the pandas sample standard
deviation of the valid heart-rate series, kept as a parameter.  Note this
function's CV guard returns 100 on mean ≤ 0, and its minimum sample count
is 10. -/
def calculate_hr_stability (hr_col : Option (List (Option ℚ))) (std : ℚ) :
    HrStability :=
  match hr_col with
  | none => ⟨0, 100, 0⟩
  | some col =>
    let hr := col.filterMap id
    if hr.length < 10 then ⟨0, 100, 0⟩
    else
      let m := listMean hr
      let cv := if 0 < m then std / m * 100 else 100
      let mid := hr.length / 2
      let drift := listMean (hr.drop mid) - listMean (hr.take mid)
      ⟨max 0 (100 - cv * 10 - |drift| * 2), cv, drift⟩

/-- Counterexample for C9: a cleaned speed series of 5 constant positive
samples — fewer than the claimed minimum of 10 — is not degraded by
`calculate_swim_metrics`: its CV is computed (0 here, since the standard
deviation of constant data is 0), not set to the insufficient-data value
100. -/
theorem calculate_swim_metrics_no_min10_counterexample :
    (cleanSpeed [some 1, some 1, some 1, some 1, some 1]).length = 5 ∧
    (speedStatsOf [some 1, some 1, some 1, some 1, some 1] 0).speed_cv = 0 ∧
    (speedStatsOf [some 1, some 1, some 1, some 1, some 1] 0).speed_cv ≠ 100
    := by
  have hcv : (speedStatsOf [some 1, some 1, some 1, some 1, some 1] 0).speed_cv
      = 0 := by
    unfold speedStatsOf
    rw [if_pos (by decide :
      0 < (cleanSpeed [some 1, some 1, some 1, some 1, some 1]).length)]
    dsimp only
    unfold cvOf
    split_ifs <;> simp
  exact ⟨rfl, hcv, by rw [hcv]; norm_num⟩

/-- C9 (amended): the heart-rate extractor `calculate_hr_stability` returns
the degraded bundle {stability 0, CV 100, drift 0} — without raising — when
fewer than 10 valid samples remain (or the column is absent);
`calculate_swim_metrics`, by contrast, applies a minimum sample count of 1,
not 10, to the cleaned speed series: any nonempty cleaned series has
`speed_cv` and `stop_percentage` computed by the formulas (only the empty
series degrades, to CV 100 and stop 100). -/
theorem insufficient_data_handling (col : List (Option ℚ)) (std : ℚ)
    (hlt : (col.filterMap id).length < 10) :
    calculate_hr_stability (some col) std = ⟨0, 100, 0⟩ ∧
    calculate_hr_stability none std = ⟨0, 100, 0⟩ ∧
    (∀ scol : List (Option ℚ), ∀ sstd : ℚ, cleanSpeed scol ≠ [] →
      (speedStatsOf scol sstd).speed_cv =
        cvOf sstd (listMean (cleanSpeed scol)) ∧
      (speedStatsOf scol sstd).stop_percentage =
        (((cleanSpeed scol).filter
          (fun x => decide (x < listMean (cleanSpeed scol) * (1/10)))).length
            : ℚ) / (cleanSpeed scol).length * 100) ∧
    (cleanSpeed [] = ([] : List ℚ) →
      speedStatsOf [] std = ⟨0, 100, 100⟩) := by
  refine ⟨?_, rfl, ?_, fun _ => rfl⟩
  · simp only [calculate_hr_stability]
    rw [if_pos hlt]
  · intro scol sstd hne
    have hlen : 0 < (cleanSpeed scol).length := List.length_pos.mpr hne
    unfold speedStatsOf
    rw [if_pos hlen]
    dsimp only
    rw [if_pos hlen]
    exact ⟨rfl, rfl⟩

/-- Witness for C9 (amended) at a concrete three-sample heart-rate column. -/
theorem insufficient_data_handling_witness :
    calculate_hr_stability (some [some 1, some 2, some 3]) 7 = ⟨0, 100, 0⟩ :=
  (insufficient_data_handling [some 1, some 2, some 3] 7 (by decide)).1

/-- The Activity columns read by `calculate_tss_for_activity`
(`pmc_calculator.py`); `none` models a NULL column. -/
structure Activity where
  moving_time_s : Option ℚ
  elapsed_time_s : Option ℚ
  average_heartrate : Option ℚ
  max_heartrate : Option ℚ
deriving Repr

/-- Python truthiness of an optional numeric value: present and nonzero. -/
def truthy (o : Option ℚ) : Bool :=
  match o with
  | some x => decide (x ≠ 0)
  | none => false

/-- `duration_s = activity.moving_time_s or activity.elapsed_time_s or 0`
(Python `or` skips falsy values: `None` and `0`). -/
def durationS (a : Activity) : ℚ :=
  if truthy a.moving_time_s then a.moving_time_s.getD 0
  else if truthy a.elapsed_time_s then a.elapsed_time_s.getD 0
  else 0

/-- Lower-casing of a sport-type string (`sport_type.lower()`). -/
def lowerStr (s : String) : String := String.mk (s.toList.map Char.toLower)

/-- Whether the first character list is an initial segment of the second. -/
def charSeqStarts : List Char → List Char → Bool
  | [], _ => true
  | _ :: _, [] => false
  | a :: as, b :: bs => a = b && charSeqStarts as bs

/-- Whether the needle occurs contiguously in the haystack. -/
def charSeqHas (needle : List Char) : List Char → Bool
  | [] => charSeqStarts needle []
  | c :: rest => charSeqStarts needle (c :: rest) || charSeqHas needle rest

/-- Python's `needle in haystack` substring test on strings. -/
def pyIn (needle hay : String) : Bool := charSeqHas needle.toList hay.toList

/-- The per-sport default intensity factor branch of
`calculate_tss_for_activity` (swim 0.75, run 0.78, ride/bike/cycle 0.70,
unknown 0.75), matched by substring on the lower-cased sport string. -/
def sportDefaultIF (sport : String) : ℚ :=
  if pyIn "swim" (lowerStr sport) then 3/4
  else if pyIn "run" (lowerStr sport) then 39/50
  else if pyIn "ride" (lowerStr sport) || pyIn "bike" (lowerStr sport) ||
    pyIn "cycle" (lowerStr sport) then 7/10
  else 3/4

/-- The intensity-factor estimate: heart-rate ratio formula clamped to
[0.3, 1.0] when both heart-rate fields are truthy, else the sport
default. -/
def intensityFactor (a : Activity) (sport : String) : ℚ :=
  if truthy a.average_heartrate && truthy a.max_heartrate then
    max (3/10) (min 1 (a.average_heartrate.getD 0 / a.max_heartrate.getD 0 *
      (9/10) + 1/10))
  else sportDefaultIF sport

/-- `calculate_tss_for_activity(activity, sport_type)`:
`TSS = duration_hours * IF^2 * 100`, 0 when the duration is zero.  The
final `round(tss, 2)` float presentation rounding is omitted. -/
def calculate_tss_for_activity (a : Activity) (sport : String) : ℚ :=
  if durationS a / 3600 = 0 then 0
  else durationS a / 3600 * (intensityFactor a sport) ^ 2 * 100

/-- One activity of the PMC query result, tagged with its calendar-day
index inside the requested window (`activity.start_date.date()`) and its
sport string (`activity.sport_type or activity.type or 'Unknown'`). -/
structure DatedActivity where
  day : ℕ
  activity : Activity
  sport : String

/-- The `daily_tss` dict-accumulation loop of `calculate_pmc`, as the
function from day index to accumulated TSS (absent key = 0). -/
def dailyTssMap (acts : List DatedActivity) : ℕ → ℚ :=
  acts.foldl
    (fun f x => fun d =>
      if d = x.day then f d + calculate_tss_for_activity x.activity x.sport
      else f d)
    (fun _ => 0)

/-- The activity of the C8 counterexample: one hour long, average heart
rate recorded as 0, maximum 150. -/
def zeroAvgHrActivity : Activity := ⟨some 3600, none, some 0, some 150⟩

/-- Counterexample for C8: an activity whose average heart rate is present
but equal to 0 is falsy in Python, so `calculate_tss_for_activity` takes
the sport-default branch (IF 0.75, TSS 56.25 for one hour of swimming),
not the heart-rate-ratio branch the claim prescribes for "present" heart
rates (clamped IF 0.3, TSS 9). -/
theorem calculate_tss_zero_avg_hr_counterexample :
    calculate_tss_for_activity zeroAvgHrActivity "Swim" = 225/4 ∧
    (225/4 : ℚ) ≠ 3600 / 3600 *
      (max (3/10) (min 1 (0 / 150 * (9/10) + 1/10))) ^ 2 * 100 := by
  constructor
  · have h1 : durationS zeroAvgHrActivity = 3600 := rfl
    have h2 : intensityFactor zeroAvgHrActivity "Swim" = 3/4 := by
      unfold intensityFactor
      rw [if_neg (by decide)]
      rfl
    unfold calculate_tss_for_activity
    rw [h1, h2, if_neg (by norm_num)]
    norm_num
  · have : max ((3:ℚ)/10) (min 1 (0 / 150 * (9/10) + 1/10)) = 3/10 := by
      norm_num
    rw [this]
    norm_num

/-- C8 (amended): a zero-duration activity yields TSS 0; when both
heart-rate fields are truthy (present and nonzero) and the duration is
nonzero, TSS is `duration_hours × IF² × 100` with IF the clamped
heart-rate-ratio estimate; otherwise TSS uses the per-sport default IF
(swim 0.75, run 0.78, ride/bike/cycle 0.70, unknown 0.75); and the daily
TSS map of `calculate_pmc` sums the TSS of all activities sharing a
calendar day. -/
theorem calculate_tss_spec (a : Activity) (sport : String) :
    (durationS a = 0 → calculate_tss_for_activity a sport = 0) ∧
    (durationS a ≠ 0 → truthy a.average_heartrate = true →
      truthy a.max_heartrate = true →
      calculate_tss_for_activity a sport = durationS a / 3600 *
        (max (3/10) (min 1 (a.average_heartrate.getD 0 /
          a.max_heartrate.getD 0 * (9/10) + 1/10))) ^ 2 * 100) ∧
    (durationS a ≠ 0 → (truthy a.average_heartrate = false ∨
      truthy a.max_heartrate = false) →
      calculate_tss_for_activity a sport =
        durationS a / 3600 * (sportDefaultIF sport) ^ 2 * 100) ∧
    (sportDefaultIF "Swim" = 3/4 ∧ sportDefaultIF "Run" = 39/50 ∧
      sportDefaultIF "Ride" = 7/10 ∧ sportDefaultIF "Bike" = 7/10 ∧
      sportDefaultIF "Cycle" = 7/10 ∧ sportDefaultIF "Yoga" = 3/4) ∧
    (∀ acts : List DatedActivity, ∀ d : ℕ, dailyTssMap acts d =
      ((acts.filter (fun x => decide (d = x.day))).map
        (fun x => calculate_tss_for_activity x.activity x.sport)).sum) := by
  have hsum : ∀ (acts : List DatedActivity) (f : ℕ → ℚ) (d : ℕ),
      acts.foldl
        (fun f x => fun d =>
          if d = x.day then f d + calculate_tss_for_activity x.activity x.sport
          else f d) f d =
      f d + ((acts.filter (fun x => decide (d = x.day))).map
        (fun x => calculate_tss_for_activity x.activity x.sport)).sum := by
    intro acts
    induction acts with
    | nil => intro f d; simp
    | cons x rest ih =>
      intro f d
      rw [List.foldl_cons, ih]
      by_cases hd : d = x.day
      · subst hd
        rw [if_pos rfl]
        simp [List.filter_cons]
        ring
      · rw [if_neg hd]
        simp [List.filter_cons, hd]
  refine ⟨?_, ?_, ?_, ⟨rfl, rfl, rfl, rfl, rfl, rfl⟩, ?_⟩
  · intro h
    unfold calculate_tss_for_activity
    rw [if_pos (by rw [h]; norm_num)]
  · intro hdur havg hmax
    unfold calculate_tss_for_activity
    rw [if_neg (div_ne_zero hdur (by norm_num))]
    unfold intensityFactor
    rw [havg, hmax]
    rfl
  · intro hdur hfalse
    unfold calculate_tss_for_activity
    rw [if_neg (div_ne_zero hdur (by norm_num))]
    unfold intensityFactor
    have : (truthy a.average_heartrate && truthy a.max_heartrate) = false := by
      rcases hfalse with h | h <;> simp [h]
    rw [this]
    rfl
  · intro acts d
    unfold dailyTssMap
    rw [hsum acts (fun _ => 0) d, zero_add]

/-- Witness for C8 (amended), at a concrete one-hour run with average heart
rate 120 and maximum 160. -/
theorem calculate_tss_spec_witness :
    calculate_tss_for_activity ⟨some 3600, none, some 120, some 160⟩ "Run" =
      durationS ⟨some 3600, none, some 120, some 160⟩ / 3600 *
        (max (3/10) (min 1 ((Option.some (120:ℚ)).getD 0 /
          (Option.some (160:ℚ)).getD 0 * (9/10) + 1/10))) ^ 2 * 100 :=
  (calculate_tss_spec ⟨some 3600, none, some 120, some 160⟩ "Run").2.1
    (by decide) (by decide) (by decide)

/-- One emitted PMC data point.  The source emits `round(x, 2)` copies of
these exact values (presentation rounding omitted); the EMA state itself is
threaded unrounded. -/
structure PMCPoint where
  tss : ℚ
  ctl : ℚ
  atl : ℚ
  tsb : ℚ
deriving Repr, DecidableEq

/-- The per-day EMA update of `calculate_pmc`: initialize to `tss` when the
state is 0 and `tss > 0`, else update by `ema + (tss - ema) / period` when
the state is positive, else leave the state unchanged. -/
def emaStep (period ema tss : ℚ) : ℚ :=
  if ema = 0 ∧ 0 < tss then tss
  else if 0 < ema then ema + (tss - ema) / period
  else ema

/-- The day loop of `calculate_pmc`: thread the CTL (period 42) and ATL
(period 7) EMA states through the complete daily TSS list, emitting one
point per day with `tsb = ctl - atl`. -/
def pmcLoop (ctl atl : ℚ) : List ℚ → List PMCPoint
  | [] => []
  | tss :: rest =>
    ⟨tss, emaStep 42 ctl tss, emaStep 7 atl tss,
      emaStep 42 ctl tss - emaStep 7 atl tss⟩ ::
      pmcLoop (emaStep 42 ctl tss) (emaStep 7 atl tss) rest

/-- CTL state after folding the 42-day EMA update over a day list. -/
def ctlFrom (c : ℚ) (days : List ℚ) : ℚ := days.foldl (emaStep 42) c

/-- ATL state after folding the 7-day EMA update over a day list. -/
def atlFrom (c : ℚ) (days : List ℚ) : ℚ := days.foldl (emaStep 7) c

/-- `calculate_pmc` over a window of `nDays` days: per-day TSS totals (the
dict default fills activity-free days with 0), then the EMA day loop from
CTL = ATL = 0.  The database query, sport filter and calendar arithmetic
are plumbing; the window is the day-index range. -/
def calculate_pmc (nDays : ℕ) (acts : List DatedActivity) : List PMCPoint :=
  pmcLoop 0 0 ((List.range nDays).map (dailyTssMap acts))

theorem emaStep_zero_zero (p : ℚ) : emaStep p 0 0 = 0 := by
  unfold emaStep
  norm_num

theorem emaStep_init (p : ℚ) {t : ℚ} (ht : 0 < t) : emaStep p 0 t = t := by
  unfold emaStep
  rw [if_pos ⟨rfl, ht⟩]

theorem foldl_emaStep_replicate_zero (p : ℚ) (n : ℕ) :
    List.foldl (emaStep p) 0 (List.replicate n 0) = 0 := by
  induction n with
  | zero => rfl
  | succ k ih =>
    rw [List.replicate_succ, List.foldl_cons, emaStep_zero_zero, ih]

theorem pmcLoop_length (days : List ℚ) :
    ∀ c a : ℚ, (pmcLoop c a days).length = days.length := by
  induction days with
  | nil => intro c a; rfl
  | cons d rest ih =>
    intro c a
    simp only [pmcLoop, List.length_cons, ih]

theorem pmcLoop_get (days : List ℚ) :
    ∀ (c a : ℚ) (i : ℕ), i < days.length →
    (pmcLoop c a days)[i]? = some ⟨days.getD i 0,
      ctlFrom c (days.take (i + 1)), atlFrom a (days.take (i + 1)),
      ctlFrom c (days.take (i + 1)) - atlFrom a (days.take (i + 1))⟩ := by
  induction days with
  | nil =>
    intro c a i h
    simp at h
  | cons d rest ih =>
    intro c a i h
    cases i with
    | zero =>
      simp [pmcLoop, ctlFrom, atlFrom]
    | succ n =>
      have hn : n < rest.length := by
        simpa using h
      simp only [pmcLoop, List.getElem?_cons_succ]
      rw [ih (emaStep 42 c d) (emaStep 7 a d) n hn]
      simp [ctlFrom, atlFrom, List.take_succ_cons, List.getD_cons_succ]

theorem pmcLoop_replicate_zero (n : ℕ) :
    pmcLoop 0 0 (List.replicate n 0) = List.replicate n ⟨0, 0, 0, 0⟩ := by
  induction n with
  | zero => rfl
  | succ k ih =>
    rw [List.replicate_succ, List.replicate_succ]
    simp only [pmcLoop, emaStep_zero_zero, ih, sub_zero]

theorem emaStep_nonneg {p ema tss : ℚ} (hp : 1 < p) (he : 0 ≤ ema)
    (ht : 0 ≤ tss) : 0 ≤ emaStep p ema tss := by
  unfold emaStep
  split_ifs with h1 h2
  · exact ht
  · have hp0 : 0 < p := lt_trans one_pos hp
    have hrw : ema + (tss - ema) / p = ((p - 1) * ema + tss) / p := by
      field_simp
      ring
    rw [hrw]
    apply div_nonneg _ hp0.le
    have : 0 ≤ (p - 1) * ema := mul_nonneg (by linarith) he
    linarith
  · exact he

theorem emaStep_pos {p ema tss : ℚ} (hp : 1 < p) (he : 0 < ema)
    (ht : 0 ≤ tss) : 0 < emaStep p ema tss := by
  unfold emaStep
  rw [if_neg (by rintro ⟨h, _⟩; exact absurd h (ne_of_gt he)), if_pos he]
  have hp0 : 0 < p := lt_trans one_pos hp
  have hrw : ema + (tss - ema) / p = ((p - 1) * ema + tss) / p := by
    field_simp
    ring
  rw [hrw]
  apply div_pos _ hp0
  have : 0 < (p - 1) * ema := mul_pos (by linarith) he
  linarith

theorem foldl_emaStep_nonneg {p : ℚ} (hp : 1 < p) :
    ∀ (l : List ℚ) (c : ℚ), 0 ≤ c → (∀ t ∈ l, 0 ≤ t) →
    0 ≤ List.foldl (emaStep p) c l := by
  intro l
  induction l with
  | nil => intro c hc _; exact hc
  | cons x xs ih =>
    intro c hc hl
    rw [List.foldl_cons]
    exact ih _ (emaStep_nonneg hp hc (hl x (by simp)))
      (fun t ht => hl t (by simp [ht]))

theorem foldl_emaStep_pos {p : ℚ} (hp : 1 < p) :
    ∀ (l : List ℚ) (c : ℚ), 0 < c → (∀ t ∈ l, 0 ≤ t) →
    0 < List.foldl (emaStep p) c l := by
  intro l
  induction l with
  | nil => intro c hc _; exact hc
  | cons x xs ih =>
    intro c hc hl
    rw [List.foldl_cons]
    exact ih _ (emaStep_pos hp hc (hl x (by simp)))
      (fun t ht => hl t (by simp [ht]))

theorem pmcLoop_mem_nonneg (days : List ℚ) (hdays : ∀ t ∈ days, 0 ≤ t) :
    ∀ (c a : ℚ), 0 ≤ c → 0 ≤ a →
    ∀ pt ∈ pmcLoop c a days, 0 ≤ pt.ctl ∧ 0 ≤ pt.atl := by
  induction days with
  | nil =>
    intro c a _ _ pt hpt
    simp [pmcLoop] at hpt
  | cons d rest ih =>
    intro c a hc ha pt hpt
    have hd : (0:ℚ) ≤ d := hdays d (by simp)
    have hrest : ∀ t ∈ rest, (0:ℚ) ≤ t := fun t ht => hdays t (by simp [ht])
    have hctl : 0 ≤ emaStep 42 c d := emaStep_nonneg (by norm_num) hc hd
    have hatl : 0 ≤ emaStep 7 a d := emaStep_nonneg (by norm_num) ha hd
    rcases List.mem_cons.mp hpt with heq | hmem
    · subst heq
      exact ⟨hctl, hatl⟩
    · exact ih hrest _ _ hctl hatl pt hmem

theorem calculate_tss_nonneg (a : Activity) (sport : String)
    (h : 0 ≤ durationS a) : 0 ≤ calculate_tss_for_activity a sport := by
  unfold calculate_tss_for_activity
  split_ifs
  · exact le_refl 0
  · exact mul_nonneg (mul_nonneg (div_nonneg h (by norm_num)) (sq_nonneg _))
      (by norm_num)

/-- C4: `calculate_pmc` threads CTL and ATL day-by-day over the entire
window by the EMA recurrence (period 42 for CTL, 7 for ATL), zero-TSS days
included, with `tsb = ctl - atl` at every emitted point; a window with no
activities yields all-zero points; and the first day with positive daily
TSS initializes both CTL and ATL to exactly that day's TSS. -/
theorem calculate_pmc_spec :
    (∀ days : List ℚ, (pmcLoop 0 0 days).length = days.length) ∧
    (∀ days : List ℚ, ∀ i : ℕ, i < days.length →
      (pmcLoop 0 0 days)[i]? = some ⟨days.getD i 0,
        ctlFrom 0 (days.take (i + 1)), atlFrom 0 (days.take (i + 1)),
        ctlFrom 0 (days.take (i + 1)) - atlFrom 0 (days.take (i + 1))⟩) ∧
    (∀ days : List ℚ, ∀ i : ℕ, i < days.length →
      ctlFrom 0 (days.take (i + 1)) =
        emaStep 42 (ctlFrom 0 (days.take i)) (days.getD i 0) ∧
      atlFrom 0 (days.take (i + 1)) =
        emaStep 7 (atlFrom 0 (days.take i)) (days.getD i 0)) ∧
    (∀ nDays : ℕ,
      calculate_pmc nDays [] = List.replicate nDays ⟨0, 0, 0, 0⟩) ∧
    (∀ n : ℕ, ∀ t : ℚ, ∀ rest : List ℚ, 0 < t →
      (pmcLoop 0 0 (List.replicate n 0 ++ t :: rest))[n]? =
        some ⟨t, t, t, 0⟩) := by
  refine ⟨fun days => pmcLoop_length days 0 0,
    fun days i h => pmcLoop_get days 0 0 i h, ?_, ?_, ?_⟩
  · intro days i h
    have h2 : days[i]? = some days[i] := List.getElem?_eq_getElem h
    have h1 : days.take (i + 1) = days.take i ++ [days.getD i 0] := by
      rw [List.take_succ, h2, List.getD_eq_getElem?_getD, h2]
      rfl
    constructor
    · unfold ctlFrom
      rw [h1, List.foldl_append]
      rfl
    · unfold atlFrom
      rw [h1, List.foldl_append]
      rfl
  · intro nDays
    unfold calculate_pmc
    have hmap : (List.range nDays).map (dailyTssMap []) =
        List.replicate nDays 0 := by
      rw [show dailyTssMap [] = fun _ => (0:ℚ) from rfl]
      rw [List.map_const', List.length_range]
    rw [hmap, pmcLoop_replicate_zero]
  · intro n t rest ht
    have hlen : n < (List.replicate n (0:ℚ) ++ t :: rest).length := by
      simp
    rw [pmcLoop_get _ 0 0 n hlen]
    have htake : (List.replicate n (0:ℚ) ++ t :: rest).take (n + 1) =
        List.replicate n 0 ++ [t] := by
      rw [List.take_append_eq_append_take]
      congr 1
      · exact List.take_of_length_le (by simp)
      · simp
    have hgetD : (List.replicate n (0:ℚ) ++ t :: rest).getD n 0 = t := by
      rw [List.getD_eq_getElem?_getD, List.getElem?_append_right (by simp)]
      simp
    rw [htake, hgetD]
    unfold ctlFrom atlFrom
    rw [List.foldl_append, List.foldl_append,
      foldl_emaStep_replicate_zero, foldl_emaStep_replicate_zero]
    simp only [List.foldl_cons, List.foldl_nil]
    rw [emaStep_init 42 ht, emaStep_init 7 ht, sub_self]

/-- Witness for C4: a two-day window with daily TSS [0, 10]; day 1 (the
first nonzero day) gets CTL = ATL = 10 and TSB = 0. -/
theorem calculate_pmc_spec_witness :
    (pmcLoop 0 0 (List.replicate 1 0 ++ 10 :: []))[1]? =
      some ⟨10, 10, 10, 0⟩ :=
  calculate_pmc_spec.2.2.2.2 1 10 [] (by norm_num)

/-- C10: per-activity TSS is nonnegative whenever the recorded duration is,
daily TSS totals are then nonnegative, every point emitted by
`calculate_pmc` has `ctl ≥ 0` and `atl ≥ 0`, and once the CTL
(respectively ATL) EMA state is positive after some day it stays strictly
positive after every later day — the update with period > 1 maps a positive
state and nonnegative TSS to a positive value, so the EMAs decay toward 0
on zero-TSS days but never reach or cross it. -/
theorem calculate_pmc_nonneg_invariant :
    (∀ a : Activity, ∀ sport : String, 0 ≤ durationS a →
      0 ≤ calculate_tss_for_activity a sport) ∧
    (∀ acts : List DatedActivity,
      (∀ x ∈ acts, 0 ≤ durationS x.activity) →
      ∀ d : ℕ, 0 ≤ dailyTssMap acts d) ∧
    (∀ nDays : ℕ, ∀ acts : List DatedActivity,
      (∀ x ∈ acts, 0 ≤ durationS x.activity) →
      ∀ pt ∈ calculate_pmc nDays acts, 0 ≤ pt.ctl ∧ 0 ≤ pt.atl) ∧
    (∀ days : List ℚ, (∀ t ∈ days, 0 ≤ t) → ∀ i j : ℕ, i ≤ j →
      (0 < ctlFrom 0 (days.take i) → 0 < ctlFrom 0 (days.take j)) ∧
      (0 < atlFrom 0 (days.take i) → 0 < atlFrom 0 (days.take j))) := by
  have aux : ∀ (acts : List DatedActivity) (f : ℕ → ℚ),
      (∀ d, 0 ≤ f d) →
      (∀ x ∈ acts, 0 ≤ calculate_tss_for_activity x.activity x.sport) →
      ∀ d, 0 ≤ acts.foldl
        (fun f x => fun d =>
          if d = x.day then
            f d + calculate_tss_for_activity x.activity x.sport
          else f d) f d := by
    intro acts
    induction acts with
    | nil => intro f hf _ d; exact hf d
    | cons x rest ih =>
      intro f hf hx d
      rw [List.foldl_cons]
      apply ih
      · intro d2
        dsimp only
        split_ifs
        · exact add_nonneg (hf d2) (hx x (by simp))
        · exact hf d2
      · intro y hy
        exact hx y (by simp [hy])
  have hdaily : ∀ (acts : List DatedActivity),
      (∀ x ∈ acts, 0 ≤ durationS x.activity) →
      ∀ d : ℕ, 0 ≤ dailyTssMap acts d := by
    intro acts hacts d
    exact aux acts (fun _ => 0) (fun _ => le_refl 0)
      (fun x hx => calculate_tss_nonneg _ _ (hacts x hx)) d
  refine ⟨fun a sport h => calculate_tss_nonneg a sport h, hdaily, ?_, ?_⟩
  · intro nDays acts hacts pt hpt
    apply pmcLoop_mem_nonneg _ ?_ 0 0 (le_refl 0) (le_refl 0) pt hpt
    intro t h
    rcases List.mem_map.mp h with ⟨d, _, rfl⟩
    exact hdaily acts hacts d
  · intro days hdays i j hij
    have hsplit : days.take j = days.take i ++ (days.drop i).take (j - i) := by
      conv_lhs => rw [show j = i + (j - i) from (Nat.add_sub_cancel' hij).symm]
      exact List.take_add days i (j - i)
    have hmid : ∀ t ∈ (days.drop i).take (j - i), (0:ℚ) ≤ t := fun t ht =>
      hdays t (List.mem_of_mem_drop (List.mem_of_mem_take ht))
    constructor
    · intro hpos
      unfold ctlFrom at *
      rw [hsplit, List.foldl_append]
      exact foldl_emaStep_pos (by norm_num) _ _ hpos hmid
    · intro hpos
      unfold atlFrom at *
      rw [hsplit, List.foldl_append]
      exact foldl_emaStep_pos (by norm_num) _ _ hpos hmid

/-- Witness for C10: a one-hour swim has nonnegative TSS, and a CTL state
made positive on day 0 of the window [5, 0] is still positive after the
zero-TSS day 1. -/
theorem calculate_pmc_nonneg_invariant_witness :
    0 ≤ calculate_tss_for_activity ⟨some 3600, none, none, none⟩ "Swim" ∧
    0 < ctlFrom 0 (([5, 0] : List ℚ).take 2) := by
  constructor
  · exact calculate_pmc_nonneg_invariant.1 ⟨some 3600, none, none, none⟩
      "Swim" (by decide)
  · have h5 : 0 < ctlFrom 0 (([5, 0] : List ℚ).take 1) := by
      rw [show (([5, 0] : List ℚ).take 1) = [5] from rfl]
      unfold ctlFrom
      rw [List.foldl_cons, List.foldl_nil, emaStep_init 42 (by norm_num)]
      norm_num
    exact (calculate_pmc_nonneg_invariant.2.2.2 [5, 0] (by decide) 1 2
      (by norm_num)).1 h5

/-- The projection of one workout's analysis record consumed by
`comparison_engine.py`: metadata fields, total score, grade and the four
sub-scores, with the source's `dict.get(..., 0)` defaults already applied
(each field is read with a 0 / "N/A" default there). -/
structure WorkoutAnalysis where
  date : String
  distance_m : ℚ
  total_time_sec : ℚ
  avg_speed_ms : ℚ
  avg_stroke_rate : ℚ
  total_score : ℚ
  grade : String
  sub_de : ℚ
  sub_pc : ℚ
  sub_ss : ℚ
  sub_sg : ℚ
deriving Repr

/-- The series dict returned by `extract_time_series`. -/
structure TimeSeries where
  dates : List String
  distances : List ℚ
  times : List ℚ
  speeds : List ℚ
  stroke_rates : List ℚ
  scores : List ℚ
  grades : List String
  sub_de : List ℚ
  sub_pc : List ℚ
  sub_ss : List ℚ
  sub_sg : List ℚ
deriving Repr

/-- `extract_time_series(workouts)` from `comparison_engine.py`. -/
def extract_time_series (ws : List WorkoutAnalysis) : TimeSeries :=
  ⟨ws.map (fun w => w.date), ws.map (fun w => w.distance_m),
   ws.map (fun w => w.total_time_sec), ws.map (fun w => w.avg_speed_ms),
   ws.map (fun w => w.avg_stroke_rate), ws.map (fun w => w.total_score),
   ws.map (fun w => w.grade), ws.map (fun w => w.sub_de),
   ws.map (fun w => w.sub_pc), ws.map (fun w => w.sub_ss),
   ws.map (fun w => w.sub_sg)⟩

/-- One TrendRecord of `calculate_trends`. -/
structure TrendRecord where
  direction : String
  change_pct : ℚ
  avg : ℚ
  trend : String
deriving Repr, DecidableEq

/-- The per-series trend block of `calculate_trends`: first-half mean vs
second-half mean (odd lengths give the extra element to the second half).
Caveat: when the first-half mean is 0, the unguarded numpy division in the
`trend` bucket produces inf/nan (yielding "up"/"down"); Lean's rational
division by zero yields 0 (yielding "stable").  No theorem below exercises
that branch: the claims proved here only concern the `len < 2` guard. -/
def trendOf (values : List ℚ) : TrendRecord :=
  let fh := listMean (values.take (values.length / 2))
  let sh := listMean (values.drop (values.length / 2))
  ⟨if fh < sh then "improving" else "declining",
   if 0 < fh then (sh - fh) / fh * 100 else 0,
   listMean values,
   if |sh - fh| / fh < 1/20 then "stable"
   else if fh < sh then "up" else "down"⟩

/-- `calculate_trends(workouts)` from `comparison_engine.py`: empty mapping
for fewer than 2 workouts, else one keyed TrendRecord per tracked series
(each series has the same length as `workouts`, so the inner `>= 2` length
guards repeat the outer one). -/
def calculate_trends (ws : List WorkoutAnalysis) :
    List (String × TrendRecord) :=
  if ws.length < 2 then []
  else
    let ts := extract_time_series ws
    (if 2 ≤ ts.distances.length then [("distance", trendOf ts.distances)]
      else []) ++
    (if 2 ≤ ts.speeds.length then [("speed", trendOf ts.speeds)] else []) ++
    (if 2 ≤ ts.scores.length then [("score", trendOf ts.scores)] else []) ++
    (if 2 ≤ ts.sub_de.length then
      [("sub_score_distance_endurance", trendOf ts.sub_de)] else []) ++
    (if 2 ≤ ts.sub_pc.length then
      [("sub_score_pace_consistency", trendOf ts.sub_pc)] else []) ++
    (if 2 ≤ ts.sub_ss.length then
      [("sub_score_stroke_stability", trendOf ts.sub_ss)] else []) ++
    (if 2 ≤ ts.sub_sg.length then
      [("sub_score_speed_gears", trendOf ts.sub_sg)] else [])

/-- Key lookup in the trends mapping (`'score' in trends` / `trends[k]`). -/
def lookupTrend (trends : List (String × TrendRecord)) (k : String) :
    Option TrendRecord :=
  (trends.find? (fun p => decide (p.1 = k))).map (fun p => p.2)

/-- One coach insight: its `type` and `title` fields.  The `message` and
`reasoning` strings (templated prose, some with interpolated percentages or
area names) are presentation and are not modelled. -/
structure Insight where
  itype : String
  title : String
deriving Repr, DecidableEq

/-- Population variance (`np.std(l)**2`, ddof 0). -/
def npVar (l : List ℚ) : ℚ :=
  ((l.map (fun x => (x - listMean l) ^ 2)).sum) / l.length

/-- `generate_coach_insights(workouts, trends)` from `comparison_engine.py`
(titles and types only).  The consistency block's CV comparisons
`score_cv < 10` and `score_cv > 20` with `score_cv = std/mean*100` are
encoded squared — `100·var < mean²` and `mean²·4 < 100·var` respectively —
which is equivalent for `mean > 0` since `std = sqrt(var) ≥ 0`; the
`mean ≤ 0` guard sets `score_cv = 0`, which lands in the `< 10` branch. -/
def generate_coach_insights (ws : List WorkoutAnalysis)
    (trends : List (String × TrendRecord)) : List Insight :=
  if ws.length < 2 then []
  else
    (match lookupTrend trends "score" with
     | some tr =>
       if tr.trend = "up" then [⟨"positive", "Performance Improving"⟩]
       else if tr.trend = "down" then [⟨"warning", "Performance Declining"⟩]
       else []
     | none => []) ++
    (match lookupTrend trends "distance" with
     | some tr =>
       if tr.trend = "up" ∧ 10 < tr.change_pct then
         [⟨"positive", "Volume Building"⟩]
       else []
     | none => []) ++
    (match lookupTrend trends "speed" with
     | some tr =>
       if tr.trend = "stable" then [⟨"info", "Speed Consistency"⟩]
       else if tr.trend = "up" then [⟨"positive", "Speed Improving"⟩]
       else []
     | none => []) ++
    (let sub := trends.filter (fun p => p.1.startsWith "sub_score_")
     let improving := sub.filter (fun p => decide (p.2.trend = "up"))
     let declining := sub.filter (fun p => decide (p.2.trend = "down"))
     (if improving ≠ [] then [⟨"positive", "Strongest Area"⟩] else []) ++
     (if declining ≠ [] then [⟨"warning", "Area Needing Attention"⟩]
      else [])) ++
    (let scores := ws.map (fun w => w.total_score)
     if 3 ≤ scores.length then
       if 0 < listMean scores then
         if npVar scores * 100 < (listMean scores) ^ 2 then
           [⟨"positive", "Excellent Consistency"⟩]
         else if (listMean scores) ^ 2 * 4 < npVar scores * 100 then
           [⟨"warning", "High Variability"⟩]
         else []
       else [⟨"positive", "Excellent Consistency"⟩]
     else [])

/-- One strength/weakness entry: area name and its mean sub-score (the
`reasoning` string is presentation and not modelled). -/
structure AreaItem where
  area : String
  score : ℚ
deriving Repr

/-- `identify_strengths_weaknesses(workouts, trends)` from
`comparison_engine.py` (the `trends` argument is unused there): per
category, mean sub-score across workouts, compared to the grand mean of the
four category means; `>= +3` is a strength, else `<= -3` a weakness.  The
returned `average_scores` entry is not modelled. -/
def identify_strengths_weaknesses (ws : List WorkoutAnalysis) :
    List AreaItem × List AreaItem :=
  if ws.length < 2 then ([], [])
  else
    let de := listMean (ws.map (fun w => w.sub_de))
    let pc := listMean (ws.map (fun w => w.sub_pc))
    let ss := listMean (ws.map (fun w => w.sub_ss))
    let sg := listMean (ws.map (fun w => w.sub_sg))
    let overall := (de + pc + ss + sg) / 4
    ((if overall + 3 ≤ de then [⟨"Distance Endurance", de⟩] else []) ++
     (if overall + 3 ≤ pc then [⟨"Pace Consistency", pc⟩] else []) ++
     (if overall + 3 ≤ ss then [⟨"Stroke Stability", ss⟩] else []) ++
     (if overall + 3 ≤ sg then [⟨"Speed Gears", sg⟩] else []),
     (if ¬ overall + 3 ≤ de ∧ de ≤ overall - 3 then
       [⟨"Distance Endurance", de⟩] else []) ++
     (if ¬ overall + 3 ≤ pc ∧ pc ≤ overall - 3 then
       [⟨"Pace Consistency", pc⟩] else []) ++
     (if ¬ overall + 3 ≤ ss ∧ ss ≤ overall - 3 then
       [⟨"Stroke Stability", ss⟩] else []) ++
     (if ¬ overall + 3 ≤ sg ∧ sg ≤ overall - 3 then
       [⟨"Speed Gears", sg⟩] else []))

/-- One training recommendation: priority and focus (the recommendation,
reasoning and frequency strings are presentation and not modelled). -/
structure Recommendation where
  priority : String
  focus : String
deriving Repr, DecidableEq

/-- Python's `min(items, key=lambda x: x['score'])`: first minimal item. -/
def minByScore (h : AreaItem) (t : List AreaItem) : AreaItem :=
  t.foldl (fun best x => if x.score < best.score then x else best) h

/-- Python's `max(items, key=lambda x: x['score'])`: first maximal item. -/
def maxByScore (h : AreaItem) (t : List AreaItem) : AreaItem :=
  t.foldl (fun best x => if best.score < x.score then x else best) h

/-- `generate_training_recommendations(workouts, trends,
strengths_weaknesses)` from `comparison_engine.py` (priority/focus only;
the `workouts` argument is unused in the source body). -/
def generate_training_recommendations (ws : List WorkoutAnalysis)
    (trends : List (String × TrendRecord))
    (sw : List AreaItem × List AreaItem) : List Recommendation :=
  (match sw.2 with
   | [] => []
   | w :: wrest =>
     let area := lowerStr (minByScore w wrest).area
     if pyIn "distance" area || pyIn "endurance" area then
       [⟨"High", "Build Aerobic Base"⟩]
     else if pyIn "pace" area || pyIn "consistency" area then
       [⟨"High", "Pacing Control"⟩]
     else if pyIn "stroke" area || pyIn "stability" area then
       [⟨"High", "Technique & Stroke Rate"⟩]
     else if pyIn "speed" area || pyIn "gear" area then
       [⟨"High", "Speed Development"⟩]
     else []) ++
  (match sw.1 with
   | [] => []
   | s :: srest =>
     let area := lowerStr (maxByScore s srest).area
     if pyIn "distance" area || pyIn "endurance" area then
       [⟨"Medium", "Leverage Endurance Strength"⟩]
     else []) ++
  (match lookupTrend trends "score" with
   | some tr =>
     if tr.trend = "up" then [⟨"Low", "Maintain Momentum"⟩]
     else if tr.trend = "down" then [⟨"High", "Recovery & Deload"⟩]
     else []
   | none => [])

/-- Insert into a date-sorted list, after existing equal dates (models the
stability of Python's sort). -/
def insertByDate (x : WorkoutAnalysis) :
    List WorkoutAnalysis → List WorkoutAnalysis
  | [] => [x]
  | y :: ys =>
    if x.date < y.date then x :: y :: ys else y :: insertByDate x ys

/-- The `workouts.sort(key=lambda x: date)` step of
`analyze_multiple_workouts`. -/
def sortByDate : List WorkoutAnalysis → List WorkoutAnalysis
  | [] => []
  | x :: xs => insertByDate x (sortByDate xs)

/-- Result of `analyze_multiple_workouts`: either an error dict or the
analysis payload (workouts, time_series, trends, insights,
strengths_weaknesses, recommendations; the `summary` aggregate is
presentation and not modelled). -/
inductive MultiResult where
  | err : String → MultiResult
  | ok : List WorkoutAnalysis → TimeSeries → List (String × TrendRecord) →
      List Insight → List AreaItem × List AreaItem →
      List Recommendation → MultiResult

/-- `analyze_multiple_workouts(workout_dataframes)` from
`comparison_engine.py`.  The per-dataframe `analyze_workout` call inside
`try`/`except` is modelled by its outcome: a `none` element is a workout
whose analysis raised (it is skipped), a `some` is the resulting analysis
record. -/
def analyze_multiple_workouts (dfs : List (Option WorkoutAnalysis)) :
    MultiResult :=
  if dfs.length = 0 then .err "No workouts provided"
  else
    let workouts := dfs.filterMap id
    if workouts.length = 0 then .err "Could not analyze any workouts"
    else
      let sorted := sortByDate workouts
      .ok sorted (extract_time_series sorted) (calculate_trends sorted)
        (generate_coach_insights sorted (calculate_trends sorted))
        (identify_strengths_weaknesses sorted)
        (generate_training_recommendations sorted (calculate_trends sorted)
          (identify_strengths_weaknesses sorted))

/-- C7: the Trend Engine degrades gracefully — on exactly one analyzable
workout `calculate_trends` returns the empty mapping and no insight,
strength, weakness or recommendation (weakness-driven or otherwise) is
produced, and on zero workouts `analyze_multiple_workouts` returns the
explicit error result `{"error": "No workouts provided"}` instead of
raising. -/
theorem trend_engine_degrades_gracefully (w : WorkoutAnalysis) :
    analyze_multiple_workouts [] = .err "No workouts provided" ∧
    calculate_trends [w] = [] ∧
    (∀ trends, generate_coach_insights [w] trends = []) ∧
    identify_strengths_weaknesses [w] = ([], []) ∧
    generate_training_recommendations [w] (calculate_trends [w])
      (identify_strengths_weaknesses [w]) = [] := by
  exact ⟨rfl, rfl, fun trends => rfl, rfl, rfl⟩
